import Mathlib

/-!
Verification of the Vapi webhook server (`webhook-server.js`).

The JavaScript source is shallowly embedded: every external HTTP call
(Cal.com calendar, Twilio WhatsApp, Resend email) is modelled by an
oracle value of type `Fetch α` describing the outcome the runtime would
observe (the promise rejected, the response was non-ok, or the response
was ok with a parsed JSON body of type `α`).  JavaScript `undefined` on
string-valued places is modelled by `Option String`; JS truthiness tests
(`x || y`, `!x`) are modelled explicitly.  Thrown exceptions inside a
`try` block are modelled with `Except String`.
-/

namespace VapiWebhook

/-! ## JavaScript string and value helpers -/

/-- `pat.isPrefixOf`-based substring test: JS `String.prototype.includes`. -/
def hasInfix (pat : List Char) : List Char → Bool
  | [] => pat.isEmpty
  | c :: cs => pat.isPrefixOf (c :: cs) || hasInfix pat cs

/-- JS `s.includes(pat)`. -/
def strIncludes (s pat : String) : Bool :=
  hasInfix pat.toList s.toList

/-- JS `String.prototype.split` with a one-character separator
(empty pieces are kept; the result is always nonempty). -/
def splitChar (sep : Char) : List Char → List (List Char)
  | [] => [[]]
  | c :: cs =>
    let r := splitChar sep cs
    if c = sep then [] :: r
    else
      match r with
      | [] => [[c]]
      | p :: ps => (c :: p) :: ps

/-- Decimal value of a digit list. -/
def digitsToNat (ds : List Char) : Nat :=
  ds.foldl (fun n c => n * 10 + (c.toNat - 48)) 0

/-- JS `parseInt` on the strings this program feeds it (pieces of a split
time string): the longest leading digit run, `none` for `NaN` when there is
no leading digit.  (Sign and leading-whitespace handling of the runtime are
not exercised by this program and are not modelled.) -/
def parseIntJS (s : List Char) : Option Nat :=
  let ds := s.takeWhile Char.isDigit
  if ds.isEmpty then none else some (digitsToNat ds)

/-- JS truthiness of a possibly-`undefined` string: `undefined` and `""`
are falsy. -/
def jsTruthyB : Option String → Bool
  | none => false
  | some s => !(s == "")

/-- JS template interpolation of a possibly-`undefined` string. -/
def jsStr : Option String → String
  | none => "undefined"
  | some s => s

/-- JS `a || d` where `d` is a present string. -/
def jsOrD (a : Option String) (d : String) : String :=
  if jsTruthyB a then jsStr a else d

/-- JS `a || b` on two possibly-`undefined` strings. -/
def jsOrOpt (a b : Option String) : Option String :=
  if jsTruthyB a then a else b

/-- JS `a || b` on two possibly-`undefined` numbers (`0` is falsy). -/
def jsOrNat (a b : Option Nat) : Option Nat :=
  match a with
  | some n => if n = 0 then b else some n
  | none => b

/-- `customerPhone.replace(/\D/g, '')`: keep only decimal digits. -/
def digitsOf (s : String) : String :=
  (s.toList.filter Char.isDigit).asString

/-- Uppercase hexadecimal digit. -/
def hexDigitChar (n : Nat) : Char :=
  if n < 10 then Char.ofNat (48 + n) else Char.ofNat (55 + n)

/-- UTF-8 bytes of a character. -/
def utf8Bytes (c : Char) : List Nat :=
  let n := c.toNat
  if n < 128 then [n]
  else if n < 2048 then [192 + n / 64, 128 + n % 64]
  else if n < 65536 then [224 + n / 4096, 128 + (n / 64) % 64, 128 + n % 64]
  else [240 + n / 262144, 128 + (n / 4096) % 64, 128 + (n / 64) % 64, 128 + n % 64]

/-- Characters `encodeURIComponent` leaves unescaped. -/
def isUnreservedChar (c : Char) : Bool :=
  c.isAlphanum || c ∈ ['-', '_', '.', '!', '~', '*', Char.ofNat 39, '(', ')']

/-- JS `encodeURIComponent`. -/
def encodeURIComponent (s : String) : String :=
  (s.toList.foldr
    (fun c acc =>
      (if isUnreservedChar c then [c]
       else (utf8Bytes c).foldr
         (fun b a => '%' :: hexDigitChar (b / 16) :: hexDigitChar (b % 16) :: a) []) ++ acc)
    []).asString

/-- Every user-facing failure message of this server opens with an apology. -/
def isApology (m : String) : Bool :=
  String.toList "I apologize" |>.isPrefixOf m.toList

/-! ## Time formatter (`parseDateTime`, `formatSlots`) -/

/-- The hour/minute parsing logic of `parseDateTime` (webhook-server.js
lines 45-61).  The hour is `none` when JS `parseInt` gives `NaN`; the
minute defaults to `0` exactly as `parseInt(m) || 0` does. -/
def parseTimeHM (t : String) : Option Nat × Nat :=
  if strIncludes t "AM" || strIncludes t "PM" then
    let parts := splitChar ' ' t.toList
    let time := parts.headD []
    let period := (parts.get? 1).map List.asString
    let tparts := splitChar ':' time
    let h := tparts.headD []
    let m := tparts.get? 1
    let hours0 := parseIntJS h
    let minutes := match m with | none => 0 | some mm => (parseIntJS mm).getD 0
    let hours1 := if period = some "PM" && !(hours0 == some 12) then hours0.map (· + 12) else hours0
    let hours2 := if period = some "AM" && hours1 == some 12 then some 0 else hours1
    (hours2, minutes)
  else
    let tparts := splitChar ':' t.toList
    let h := tparts.headD []
    let m := tparts.get? 1
    (parseIntJS h, match m with | none => 0 | some mm => (parseIntJS mm).getD 0)

/-- The instant produced by `parseDateTime`, represented by its calendar-day
string and parsed hour/minute (the runtime's local-zone ISO rendering adds
no information the program inspects and is not modelled). -/
structure DateHM where
  date : String
  hour : Nat
  minute : Nat
deriving DecidableEq, Repr

/-- `parseDateTime(dateString, timeString)` (webhook-server.js lines 39-65).
A missing time string throws (`.includes` on `undefined`); a missing date
string or a `NaN` hour makes `toISOString()` throw a `RangeError`
(validity of a present date string itself is not exercised by the claims
and is not modelled). -/
def parseDateTime (dateString timeString : Option String) : Except String DateHM :=
  match timeString with
  | none => .error "TypeError: Cannot read properties of undefined (reading 'includes')"
  | some t =>
    match dateString with
    | none => .error "RangeError: Invalid time value"
    | some d =>
      match parseTimeHM t with
      | (none, _) => .error "RangeError: Invalid time value"
      | (some h, m) => .ok ⟨d, h, m⟩

/-- One slot object of the Cal.com slots response. -/
structure SlotObj where
  time : String
deriving DecidableEq, Repr

/-- `formatSlots` (webhook-server.js lines 68-82); `render` stands for the
runtime's `toLocaleTimeString('en-US', { timeZone: 'Europe/London', ... })`. -/
def formatSlots (render : String → String) (slots : Option (List SlotObj)) : List String :=
  match slots with
  | none => []
  | some l => if l.length = 0 then [] else l.map (fun s => render s.time)

/-! ## External-call oracle

Each `fetch` the program performs is modelled by the outcome the runtime
would observe: the promise rejected (network failure), the response had a
non-ok status (with its error text), or it was ok with a parsed body. -/

inductive Fetch (α : Type) where
  | threw (msg : String)
  | notOk (errorText : String)
  | ok (body : α)
deriving DecidableEq

/-- Parsed body of the Cal.com slots response:
`{ slots: { "YYYY-MM-DD": [{ time }] } }` (the `slots` member may be absent). -/
structure SlotsBody where
  slots : Option (List (String × List SlotObj))
deriving DecidableEq

/-- Parsed body of a Cal.com create-booking response; the code probes both
`booking.id`/`booking.uid` and `booking.data?.id`/`booking.data?.uid`. -/
structure NewBookingBody where
  id : Option Nat := none
  dataId : Option Nat := none
  uid : Option String := none
  dataUid : Option String := none
deriving DecidableEq

/-- Parsed body of a Cal.com reschedule response. -/
structure ReschedBody where
  id : Option Nat := none
deriving DecidableEq

/-- Twilio configuration and, when configured, the WhatsApp send outcome. -/
structure TwilioEnv where
  configured : Bool
  fetch : Fetch String
deriving DecidableEq

/-- The external outcomes one tool invocation can observe. `renderTime`
stands for the runtime's locale time formatter used by `formatSlots`. -/
structure CallEnv where
  slotsFetch : Fetch SlotsBody
  bookFetch : Fetch NewBookingBody
  cancelFetch : Fetch Unit
  reschedFetch : Fetch ReschedBody
  twilio : TwilioEnv
  renderTime : String → String

/-- The argument object of a tool call; absent members are `none`. -/
structure Params where
  date : Option String := none
  time : Option String := none
  customerName : Option String := none
  customerEmail : Option String := none
  customerPhone : Option String := none
  notes : Option String := none
  bookingUid : Option String := none
  reason : Option String := none
  newDate : Option String := none
  newTime : Option String := none
deriving DecidableEq, Repr

/-- A tool-call result object; members a handler does not set are `none`. -/
structure ToolResult where
  success : Bool
  message : String
  error : Option String := none
  slots : Option (List String) := none
  bookingId : Option Nat := none
  bookingUid : Option String := none
  emailConfirmLink : Option String := none
  whatsappSent : Option Bool := none
deriving DecidableEq, Repr

/-- Result object of `sendWhatsAppMessage`. -/
structure WaResult where
  success : Bool
  error : Option String := none
  messageId : Option String := none
deriving DecidableEq, Repr

/-- `sendWhatsAppMessage` (webhook-server.js lines 85-124): soft-skip when
Twilio credentials are absent, failure-shaped result on a thrown fetch or a
non-ok response, success with the message sid otherwise.  The destination
and body do not influence the outcome and are taken as given. -/
def sendWhatsAppMessage (tw : TwilioEnv) (_to : Option String) (_message : String) : WaResult :=
  if !tw.configured then
    { success := false, error := some "Twilio not configured" }
  else
    match tw.fetch with
    | .threw e => { success := false, error := some e }
    | .notOk t => { success := false, error := some t }
    | .ok sid => { success := true, messageId := some sid }

/-! ## Tool handlers -/

/-- `handleGetAvailableSlots` (webhook-server.js lines 127-181). -/
def handleGetAvailableSlots (env : CallEnv) (p : Params) : ToolResult :=
  match env.slotsFetch with
  | .threw e =>
    { success := false, error := some e,
      message := "I apologize, but I am having trouble checking the calendar. Please try again." }
  | .notOk _ =>
    { success := false, error := some "Failed to get available slots",
      message := "I apologize, but I am having trouble checking the calendar right now. Please try again in a moment." }
  | .ok data =>
    let dateSlots :=
      (match data.slots, p.date with
       | some m, some d => m.lookup d
       | _, _ => none).getD []
    let formattedSlots := formatSlots env.renderTime (some dateSlots)
    if formattedSlots.length = 0 then
      { success := true, slots := some [],
        message := "I do not have any available appointments on " ++ jsStr p.date ++ ". Would you like to try a different date?" }
    else
      let slotsText := String.intercalate ", " (formattedSlots.take 5)
      { success := true, slots := some formattedSlots,
        message := "I have the following times available on " ++ jsStr p.date ++ ": " ++ slotsText ++ ". Which time works best for you?" }

/-- Catch-block result of `handleBookAppointment`. -/
def bookCatch (e : String) : ToolResult :=
  { success := false, error := some e,
    message := "I apologize, but I encountered an error while booking your appointment. Please try again." }

/-- Line 191: `params.customerEmail || ` placeholder, and the derived
`needsEmailConfirmation` flag; throws when the placeholder is needed but
`customerPhone` is absent (`.replace` on `undefined`). -/
def bookEmailCalc (p : Params) : Except String (String × Bool) :=
  if jsTruthyB p.customerEmail then .ok (jsStr p.customerEmail, false)
  else
    match p.customerPhone with
    | none => .error "TypeError: Cannot read properties of undefined (reading 'replace')"
    | some ph => .ok ("pending-" ++ digitsOf ph ++ "@scteeth.temp", true)

/-- The booking request body built at webhook-server.js lines 196-208
(the fixed `location`/`language`/`metadata` members carry no information
per call and are left implicit). -/
structure BookingPayload where
  eventTypeId : Nat
  start : DateHM
  timeZone : String
  name : Option String
  email : String
  notes : String
deriving DecidableEq, Repr

/-- `handleBookAppointment` (webhook-server.js lines 183-288), paired with
the outbound booking payload when one was built before a return. -/
def handleBookAppointment (env : CallEnv) (p : Params) : ToolResult × Option BookingPayload :=
  match parseDateTime p.date p.time with
  | .error e => (bookCatch e, none)
  | .ok startTime =>
    match bookEmailCalc p with
    | .error e => (bookCatch e, none)
    | .ok (email, needsConf) =>
      let payload : BookingPayload :=
        { eventTypeId := 3917527, start := startTime, timeZone := "Europe/London",
          name := p.customerName, email := email,
          notes := jsOrD p.notes
            (if needsConf then "Booked via AI Receptionist - Email pending via WhatsApp"
             else "Booked via AI Receptionist") }
      match env.bookFetch with
      | .threw e => (bookCatch e, some payload)
      | .notOk err =>
        ({ success := false, error := some err,
           message := "I apologize, but I was unable to create the booking. The time slot may no longer be available. Would you like to try a different time?" },
         some payload)
      | .ok body =>
        let bookingId := jsOrNat body.id body.dataId
        let bookingUid := jsOrOpt body.uid body.dataUid
        let emailConfirmLink :=
          if needsConf then
            some ("https://vapiwebhook.onrender.com/confirm-email.html?booking=" ++ jsStr bookingUid
              ++ "&phone=" ++ encodeURIComponent (jsStr p.customerPhone))
          else none
        let waMessage :=
          if needsConf then
            "Hi " ++ jsStr p.customerName ++ "! Your appointment is confirmed for " ++ jsStr p.date
              ++ " at " ++ jsStr p.time
              ++ ".\n\nPlease click this link to confirm your name and email address:\n"
              ++ jsStr emailConfirmLink ++ "\n\nThank you! - AI Front Desk"
          else
            "Hi " ++ jsStr p.customerName ++ "! Your appointment is confirmed for " ++ jsStr p.date
              ++ " at " ++ jsStr p.time
              ++ ".\n\nYou will receive a calendar invite and Zoom link at " ++ email
              ++ ".\n\nThank you! - AI Front Desk"
        let wa := sendWhatsAppMessage env.twilio p.customerPhone waMessage
        ({ success := true, bookingId := bookingId, bookingUid := bookingUid,
           emailConfirmLink := emailConfirmLink, whatsappSent := some wa.success,
           message :=
             if needsConf then
               "Perfect! I have booked your appointment for " ++ jsStr p.time ++ " on " ++ jsStr p.date
                 ++ ". You will receive a WhatsApp message with a link to confirm your email address and get your Zoom meeting link. Is there anything else I can help you with?"
             else
               "Perfect! I have booked your appointment for " ++ jsStr p.time ++ " on " ++ jsStr p.date
                 ++ ". You will receive email and WhatsApp confirmations shortly. Is there anything else I can help you with?" },
         some payload)

/-- `handleCancelAppointment` (webhook-server.js lines 290-327). -/
def handleCancelAppointment (env : CallEnv) (_p : Params) : ToolResult :=
  match env.cancelFetch with
  | .threw e =>
    { success := false, error := some e,
      message := "I apologize, but I encountered an error while cancelling your appointment." }
  | .notOk err =>
    { success := false, error := some err,
      message := "I apologize, but I was unable to cancel that appointment. Could you provide your booking confirmation number?" }
  | .ok _ =>
    { success := true,
      message := "I have cancelled your appointment. You will receive a confirmation email shortly. Is there anything else I can help you with?" }

/-- `handleRescheduleAppointment` (webhook-server.js lines 329-371). -/
def handleRescheduleAppointment (env : CallEnv) (p : Params) : ToolResult :=
  match parseDateTime p.newDate p.newTime with
  | .error e =>
    { success := false, error := some e,
      message := "I apologize, but I encountered an error while rescheduling your appointment." }
  | .ok _ =>
    match env.reschedFetch with
    | .threw e =>
      { success := false, error := some e,
        message := "I apologize, but I encountered an error while rescheduling your appointment." }
    | .notOk err =>
      { success := false, error := some err,
        message := "I apologize, but I was unable to reschedule that appointment. The new time may not be available." }
    | .ok body =>
      { success := true, bookingId := body.id,
        message := "Perfect! I have rescheduled your appointment to " ++ jsStr p.newTime ++ " on " ++ jsStr p.newDate ++ ". You will receive an updated confirmation email. Is there anything else I can help you with?" }

/-! ## Tool dispatcher (`POST /webhook`) -/

/-- The `function` member of a tool call. -/
structure FuncCall where
  name : String
  args : Params
deriving DecidableEq, Repr

/-- One entry of `toolCallList`.  (A tool call of kind `function` always
carries its `function` member, per the ToolInvocation shape the source
destructures.) -/
structure ToolCall where
  id : String
  type : String
  func : FuncCall
deriving DecidableEq, Repr

/-- One entry of the response's `results` array. -/
structure TaggedResult where
  toolCallId : String
  result : ToolResult
deriving DecidableEq, Repr

/-- The `switch (name)` at webhook-server.js lines 413-437. -/
def runCall (env : CallEnv) (f : FuncCall) : ToolResult :=
  if f.name = "getAvailableSlots" then handleGetAvailableSlots env f.args
  else if f.name = "bookAppointment" then (handleBookAppointment env f.args).1
  else if f.name = "cancelAppointment" then handleCancelAppointment env f.args
  else if f.name = "rescheduleAppointment" then handleRescheduleAppointment env f.args
  else
    { success := false, error := some ("Unknown function: " ++ f.name),
      message := "I apologize, but I am not able to perform that action right now." }

/-- The `for (const toolCall of toolCallList)` loop (lines 398-458);
`env j` gives the external outcomes the call at list position `j` observes. -/
def dispatchAux (env : Nat → CallEnv) (j : Nat) : List ToolCall → List TaggedResult
  | [] => []
  | tc :: rest =>
    if tc.type = "function" then
      { toolCallId := tc.id, result := runCall (env j) tc.func } :: dispatchAux env (j + 1) rest
    else
      dispatchAux env (j + 1) rest

/-- Dispatch a whole batch. -/
def dispatch (env : Nat → CallEnv) (calls : List ToolCall) : List TaggedResult :=
  dispatchAux env 0 calls

/-- The `message` member of an inbound webhook body. -/
structure WebhookMessage where
  type : String
  toolCallList : Option (List ToolCall)
deriving DecidableEq, Repr

/-- An inbound webhook body. -/
structure WebhookBody where
  message : Option WebhookMessage
deriving DecidableEq, Repr

/-- The webhook endpoint's response. -/
structure WebhookResponse where
  results : List TaggedResult
deriving DecidableEq, Repr

/-- `POST /webhook` (webhook-server.js lines 374-462). -/
def webhook (env : Nat → CallEnv) (body : WebhookBody) : WebhookResponse :=
  match body.message with
  | none => ⟨[]⟩
  | some m =>
    if m.type ≠ "tool-calls" then ⟨[]⟩
    else
      match m.toolCallList with
      | none => ⟨[]⟩
      | some l => if l.length = 0 then ⟨[]⟩ else ⟨dispatch env l⟩

/-- Number of `function`-kind tool calls among the first `j` entries:
the output position at which the call at input position `j` lands. -/
def countFn (calls : List ToolCall) (j : Nat) : Nat :=
  ((calls.take j).filter (fun tc => tc.type == "function")).length

/-! ## Email correction workflow (`POST /api/update-email`) -/

/-- One attendee of a remote booking; members may be absent. -/
structure Attendee where
  name : Option String := none
  email : Option String := none
  timeZone : Option String := none
deriving DecidableEq, Repr

/-- Booking metadata; may carry a meeting-join URL. -/
structure MetaData where
  videoCallUrl : Option String := none
deriving DecidableEq, Repr

/-- A remote booking as returned by the Cal.com list endpoint. -/
structure Booking where
  id : Nat
  uid : String
  startTime : String
  eventTypeId : Nat
  attendees : List Attendee := []
  metadata : Option MetaData := none
deriving DecidableEq, Repr

/-- Parsed body of the Cal.com list-bookings response. -/
structure BookingsBody where
  bookings : Option (List Booking)
deriving DecidableEq, Repr

/-- The replacement-booking request body built at webhook-server.js
lines 559-571. -/
structure RebookPayload where
  eventTypeId : Nat
  start : String
  timeZone : String
  name : String
  email : String
  notes : String
deriving DecidableEq, Repr

/-- One outbound collaborator call of the correction endpoint, in
execution order. -/
inductive CollabCall where
  | listBookings
  | cancelBooking (id : Nat)
  | createBooking (payload : RebookPayload)
  | sendEmail (dest : String)
deriving DecidableEq, Repr

/-- An entry of the in-memory `bookingCorrections` map.  The rebook path
stores `oldBookingUid`/`newBookingUid`; the manual path stores `bookingUid`
and no `newBookingUid` member. -/
structure CorrectionRecord where
  oldBookingUid : Option String := none
  newBookingUid : Option String := none
  bookingUid : Option String := none
  email : String
  name : String
  phone : Option String
  originalEmail : Option String
  originalName : Option String
  updatedAt : String
deriving DecidableEq, Repr

/-- An inbound correction request body. -/
structure CorrReq where
  bookingUid : Option String := none
  email : Option String := none
  phone : Option String := none
  name : Option String := none
deriving DecidableEq, Repr

/-- External outcomes one correction request can observe. `now` is the
`new Date().toISOString()` timestamp. -/
structure CorrEnv where
  listFetch : Fetch BookingsBody
  cancelFetch : Fetch Unit
  createFetch : Fetch NewBookingBody
  resendConfigured : Bool
  emailFetch : Fetch String
  now : String

/-- The `booking` member of a successful correction response. -/
structure RespBooking where
  date : String
  time : String
  name : String
deriving DecidableEq, Repr

/-- What `POST /api/update-email` produces: the HTTP status and JSON body,
the `bookingCorrections` store after the request, and the outbound
collaborator calls in order. -/
structure CorrOutcome where
  status : Nat
  success : Bool
  message : String
  booking : Option RespBooking := none
  store : List (String × CorrectionRecord)
  calls : List CollabCall
deriving Repr

/-- `name || booking.attendees?.[0]?.name || 'Customer'` (line 531). -/
def correctedNameOf (name : Option String) (b : Booking) : String :=
  jsOrD name (jsOrD ((b.attendees.head?).bind (·.name)) "Customer")

/-- `booking.attendees?.[0]?.email` (line 532). -/
def oldEmailOf (b : Booking) : Option String :=
  (b.attendees.head?).bind (·.email)

/-- The replacement-booking payload (lines 559-571). -/
def rebookPayloadOf (b : Booking) (cn e : String) : RebookPayload :=
  { eventTypeId := b.eventTypeId, start := b.startTime,
    timeZone := jsOrD ((b.attendees.head?).bind (·.timeZone)) "Europe/London",
    name := cn, email := e,
    notes := "Booked via AI Receptionist - Email confirmed by customer" }

/-- The non-placeholder / rebook-fallback tail of the endpoint
(webhook-server.js lines 621-695): record the correction, attempt the
manual confirmation email when Resend is configured (its outcome is only
logged), and answer 200. -/
def corrFallback (env : CorrEnv) (store : List (String × CorrectionRecord))
    (u e : String) (phone : Option String) (booking : Booking)
    (correctedName : String) (oldEmail : Option String) (fd ft : String)
    (calls : List CollabCall) : CorrOutcome :=
  let rec2 : CorrectionRecord :=
    { bookingUid := some u, email := e, name := correctedName, phone := phone,
      originalEmail := oldEmail, originalName := (booking.attendees.head?).bind (·.name),
      updatedAt := env.now }
  { status := 200, success := true,
    message := "Email confirmed successfully! You will receive a confirmation email shortly.",
    booking := some ⟨fd, ft, correctedName⟩,
    store := (u, rec2) :: store,
    calls := if env.resendConfigured then calls ++ [CollabCall.sendEmail e] else calls }

/-- `POST /api/update-email` with present, truthy `bookingUid`/`email`
(webhook-server.js lines 483-703).  `fmt` stands for the runtime's
`toLocaleDateString`/`toLocaleTimeString` pair applied to the booking's
start instant. -/
def updateEmailMain (fmt : String → String × String) (env : CorrEnv)
    (store : List (String × CorrectionRecord)) (u e : String)
    (phone name : Option String) : CorrOutcome :=
  match env.listFetch with
  | .threw _ =>
    { status := 500, success := false, message := "Server error. Please try again.",
      store := store, calls := [CollabCall.listBookings] }
  | .notOk _ =>
    { status := 404, success := false,
      message := "Unable to verify booking. The link may be invalid or expired.",
      store := store, calls := [CollabCall.listBookings] }
  | .ok data =>
    let bookings := data.bookings.getD []
    match bookings.find? (fun b => b.uid == u) with
    | none =>
      { status := 404, success := false,
        message := "Booking not found. The link may be invalid or expired.",
        store := store, calls := [CollabCall.listBookings] }
    | some booking =>
      let fd := (fmt booking.startTime).1
      let ft := (fmt booking.startTime).2
      let correctedName := correctedNameOf name booking
      let oldEmail := oldEmailOf booking
      let isPlaceholderEmail := jsTruthyB oldEmail && strIncludes (jsStr oldEmail) "@scteeth.temp"
      if isPlaceholderEmail then
        match env.cancelFetch with
        | .threw _ =>
          -- the rebook try-block is aborted before the create call
          corrFallback env store u e phone booking correctedName oldEmail fd ft
            [CollabCall.listBookings, CollabCall.cancelBooking booking.id]
        | _ =>
          -- a non-ok cancel is logged and rebooking continues
          let callsSoFar :=
            [CollabCall.listBookings, CollabCall.cancelBooking booking.id,
             CollabCall.createBooking (rebookPayloadOf booking correctedName e)]
          match env.createFetch with
          | .threw _ =>
            corrFallback env store u e phone booking correctedName oldEmail fd ft callsSoFar
          | .notOk _ =>
            -- `throw new Error('Failed to rebook with correct email')`, caught below
            corrFallback env store u e phone booking correctedName oldEmail fd ft callsSoFar
          | .ok newBooking =>
            let rec1 : CorrectionRecord :=
              { oldBookingUid := some u, newBookingUid := jsOrOpt newBooking.uid newBooking.dataUid,
                email := e, name := correctedName, phone := phone,
                originalEmail := oldEmail,
                originalName := (booking.attendees.head?).bind (·.name),
                updatedAt := env.now }
            { status := 200, success := true,
              message := "Email confirmed successfully! You will receive a confirmation email from Cal.com shortly.",
              booking := some ⟨fd, ft, correctedName⟩,
              store := (u, rec1) :: store,
              calls := callsSoFar }
      else
        corrFallback env store u e phone booking correctedName oldEmail fd ft
          [CollabCall.listBookings]

/-- `POST /api/update-email` (webhook-server.js lines 469-704), including
the 400 precondition guard. -/
def updateEmail (fmt : String → String × String) (env : CorrEnv)
    (store : List (String × CorrectionRecord)) (req : CorrReq) : CorrOutcome :=
  if !(jsTruthyB req.bookingUid) || !(jsTruthyB req.email) then
    { status := 400, success := false, message := "Booking ID and email are required",
      store := store, calls := [] }
  else
    updateEmailMain fmt env store (jsStr req.bookingUid) (jsStr req.email) req.phone req.name

/-! ## Concrete fixtures used by witness theorems -/

/-- A sample per-call environment. -/
def envW : CallEnv :=
  { slotsFetch := .ok ⟨some [("2025-01-02", [])]⟩, bookFetch := .ok {},
    cancelFetch := .ok (), reschedFetch := .ok {},
    twilio := ⟨false, .ok ""⟩, renderTime := fun _ => "" }

/-- A sample date/time renderer for the correction endpoint. -/
def fmtW : String → String × String := fun _ => ("Friday, 3 January 2025", "10:00 am")

/-- A constant per-position environment for batch dispatch. -/
def envFW : Nat → CallEnv := fun _ => envW

/-- A sample batch: two `function` calls around a non-`function` one. -/
def callsW : List ToolCall :=
  [⟨"a", "function", ⟨"cancelAppointment", {}⟩⟩,
   ⟨"b", "request-start", ⟨"ignored", {}⟩⟩,
   ⟨"c", "function", ⟨"mysteryOp", {}⟩⟩]

/-- A remote booking carrying a placeholder attendee email. -/
def bookingW : Booking :=
  { id := 7, uid := "uid-old", startTime := "2025-01-03T10:00:00.000Z", eventTypeId := 3917527,
    attendees := [{ name := some "Alex", email := some "pending-447911@scteeth.temp",
                    timeZone := some "Europe/London" }] }

/-- A remote booking carrying a real attendee email. -/
def bookingW2 : Booking :=
  { id := 8, uid := "uid-real", startTime := "2025-01-04T11:00:00.000Z", eventTypeId := 3917527,
    attendees := [{ name := some "Sam", email := some "sam@example.com",
                    timeZone := some "Europe/London" }] }

/-- A sample correction-endpoint environment whose rebook succeeds. -/
def corrEnvW : CorrEnv :=
  { listFetch := .ok ⟨some [bookingW, bookingW2]⟩, cancelFetch := .ok (),
    createFetch := .ok { uid := some "uid-new" }, resendConfigured := true,
    emailFetch := .ok "em_1", now := "2025-01-02T09:00:00.000Z" }

/-- The same environment with a failing rebook creation. -/
def corrEnvWFail : CorrEnv :=
  { corrEnvW with createFetch := .notOk "slot taken" }

/-- A sample correction request. -/
def corrReqW : CorrReq :=
  { bookingUid := some "uid-old", email := some "alex@example.com",
    phone := some "+447911", name := some "Alex B" }

/-- A correction request for the real-email booking. -/
def corrReqW2 : CorrReq :=
  { bookingUid := some "uid-real", email := some "sam.new@example.com",
    phone := some "+447000", name := none }

/-- Booking parameters with a supplied customer email. -/
def pW8 : Params :=
  { date := some "2025-06-01", time := some "2:00 PM", customerName := some "Al",
    customerEmail := some "al@example.com", customerPhone := some "+447911" }

/-- Booking parameters with no customer email. -/
def pW10 : Params :=
  { date := some "2025-06-01", time := some "2:00 PM", customerName := some "Al",
    customerPhone := some "+447911" }

/-- A call environment whose booking creation returns a uid. -/
def envW10 : CallEnv :=
  { envW with bookFetch := .ok { uid := some "uid-new" } }

end VapiWebhook

namespace VapiWebhook

/-! ## Supporting lemmas -/

theorem hasInfix_append_self (p l : List Char) : hasInfix p (l ++ p) = true := by
  induction l with
  | nil =>
    cases p with
    | nil => rfl
    | cons c cs => simp [hasInfix, List.isPrefixOf_iff_prefix]
  | cons c l ih => simp [hasInfix, ih]

theorem toList_append (s t : String) : (s ++ t).toList = s.toList ++ t.toList := rfl

theorem dispatchAux_map_tags (env : Nat → CallEnv) :
    ∀ (calls : List ToolCall) (s : Nat),
      (dispatchAux env s calls).map (·.toolCallId) =
        (calls.filter (fun tc => tc.type == "function")).map (·.id) := by
  intro calls
  induction calls with
  | nil => intro s; rfl
  | cons hd tl ih =>
    intro s
    by_cases h : hd.type = "function" <;>
      simp [dispatchAux, h, List.filter_cons, ih]

theorem countFn_zero (calls : List ToolCall) : countFn calls 0 = 0 := by
  simp [countFn]

theorem countFn_succ_cons (hd : ToolCall) (tl : List ToolCall) (j : Nat) :
    countFn (hd :: tl) (j + 1) =
      (if hd.type = "function" then 1 else 0) + countFn tl j := by
  by_cases h : hd.type = "function" <;>
    simp [countFn, List.take_succ_cons, List.filter_cons, h, Nat.add_comm]

theorem dispatchAux_getElem (env : Nat → CallEnv) :
    ∀ (calls : List ToolCall) (s j : Nat) (tc : ToolCall),
      calls[j]? = some tc → tc.type = "function" →
      (dispatchAux env s calls)[countFn calls j]? =
        some ⟨tc.id, runCall (env (s + j)) tc.func⟩ := by
  intro calls
  induction calls with
  | nil => intro s j tc h _; simp at h
  | cons hd tl ih =>
    intro s j tc hget htc
    cases j with
    | zero =>
      rw [List.getElem?_cons_zero] at hget
      injection hget with hget
      subst hget
      simp [dispatchAux, htc, countFn]
    | succ j =>
      rw [List.getElem?_cons_succ] at hget
      have ihh := ih (s + 1) j tc hget htc
      by_cases hfn : hd.type = "function"
      · rw [countFn_succ_cons, if_pos hfn, Nat.add_comm 1 (countFn tl j)]
        simp only [dispatchAux, if_pos hfn, List.getElem?_cons_succ]
        rw [show s + (j + 1) = s + 1 + j by omega]
        exact ihh
      · rw [countFn_succ_cons, if_neg hfn, Nat.zero_add]
        simp only [dispatchAux, if_neg hfn]
        rw [show s + (j + 1) = s + 1 + j by omega]
        exact ihh

theorem gas_failure_apology (env : CallEnv) (p : Params)
    (h : (handleGetAvailableSlots env p).success = false) :
    isApology (handleGetAvailableSlots env p).message = true := by
  rcases henv : env.slotsFetch with e | e | data
  · simp only [handleGetAvailableSlots, henv]
    rfl
  · simp only [handleGetAvailableSlots, henv]
    rfl
  · simp only [handleGetAvailableSlots, henv] at h
    split at h <;> simp at h

theorem book_failure_apology (env : CallEnv) (p : Params)
    (h : (handleBookAppointment env p).1.success = false) :
    isApology (handleBookAppointment env p).1.message = true := by
  rcases hpd : parseDateTime p.date p.time with e | st
  · simp only [handleBookAppointment, hpd]
    rfl
  · rcases hbe : bookEmailCalc p with e | pr
    · simp only [handleBookAppointment, hpd, hbe]
      rfl
    · obtain ⟨em, nc⟩ := pr
      rcases hbf : env.bookFetch with e | e | body
      · simp only [handleBookAppointment, hpd, hbe, hbf]
        rfl
      · simp only [handleBookAppointment, hpd, hbe, hbf]
        rfl
      · simp only [handleBookAppointment, hpd, hbe, hbf] at h
        simp at h

theorem cancel_failure_apology (env : CallEnv) (p : Params)
    (h : (handleCancelAppointment env p).success = false) :
    isApology (handleCancelAppointment env p).message = true := by
  rcases henv : env.cancelFetch with e | e | u
  · simp only [handleCancelAppointment, henv]
    rfl
  · simp only [handleCancelAppointment, henv]
    rfl
  · simp only [handleCancelAppointment, henv] at h
    simp at h

theorem resched_failure_apology (env : CallEnv) (p : Params)
    (h : (handleRescheduleAppointment env p).success = false) :
    isApology (handleRescheduleAppointment env p).message = true := by
  rcases hpd : parseDateTime p.newDate p.newTime with e | st
  · simp only [handleRescheduleAppointment, hpd]
    rfl
  · rcases henv : env.reschedFetch with e | e | body
    · simp only [handleRescheduleAppointment, hpd, henv]
      rfl
    · simp only [handleRescheduleAppointment, hpd, henv]
      rfl
    · simp only [handleRescheduleAppointment, hpd, henv] at h
      simp at h

theorem runCall_failure_apology (env : CallEnv) (f : FuncCall)
    (h : (runCall env f).success = false) :
    isApology (runCall env f).message = true := by
  unfold runCall at h ⊢
  split_ifs at h ⊢ with h1 h2 h3 h4
  · exact gas_failure_apology env f.args h
  · exact book_failure_apology env f.args h
  · exact cancel_failure_apology env f.args h
  · exact resched_failure_apology env f.args h
  · rfl

/-! ## Claims -/

/-- C5: a correction request missing `bookingUid` or `email` gets a 400
failure response and no collaborator call is made. -/
theorem claimC5 (fmt : String → String × String) (env : CorrEnv)
    (store : List (String × CorrectionRecord)) (req : CorrReq)
    (h : req.bookingUid = none ∨ req.email = none) :
    (updateEmail fmt env store req).status = 400 ∧
    (updateEmail fmt env store req).success = false ∧
    (updateEmail fmt env store req).calls = [] := by
  rcases h with h | h <;> simp [updateEmail, jsTruthyB, h]

/-- Witness for C5 at a request with no `bookingUid`. -/
theorem claimC5_witness :
    (({ email := some "alex@example.com" } : CorrReq).bookingUid = none ∨
      ({ email := some "alex@example.com" } : CorrReq).email = none) ∧
    (updateEmail fmtW corrEnvW [] { email := some "alex@example.com" }).status = 400 ∧
    (updateEmail fmtW corrEnvW [] { email := some "alex@example.com" }).calls = [] :=
  ⟨Or.inl rfl,
   (claimC5 fmtW corrEnvW [] { email := some "alex@example.com" } (Or.inl rfl)).1,
   (claimC5 fmtW corrEnvW [] { email := some "alex@example.com" } (Or.inl rfl)).2.2⟩

/-- C6: `parseDateTime` hour/minute parsing: `12:00 PM` is hour 12,
`12:00 AM` is hour 0, `2:00 PM` is hour 14, `11:30 AM` is 11:30, minutes
are optional in the 12-hour form and default to 0 (`2 PM` is 14:00), and
the 24-hour form `14:00` is hour 14. -/
theorem claimC6 :
    parseDateTime (some "2025-06-01") (some "12:00 PM") = .ok ⟨"2025-06-01", 12, 0⟩ ∧
    parseDateTime (some "2025-06-01") (some "12:00 AM") = .ok ⟨"2025-06-01", 0, 0⟩ ∧
    parseDateTime (some "2025-06-01") (some "2:00 PM") = .ok ⟨"2025-06-01", 14, 0⟩ ∧
    parseDateTime (some "2025-06-01") (some "11:30 AM") = .ok ⟨"2025-06-01", 11, 30⟩ ∧
    parseDateTime (some "2025-06-01") (some "2 PM") = .ok ⟨"2025-06-01", 14, 0⟩ ∧
    parseDateTime (some "2025-06-01") (some "14:00") = .ok ⟨"2025-06-01", 14, 0⟩ :=
  ⟨rfl, rfl, rfl, rfl, rfl, rfl⟩

/-- C7: when the slot query succeeds but the requested date has an absent
or empty slot list, `handleGetAvailableSlots` answers success with an empty
slot list and a message inviting a different date — never a failure. -/
theorem claimC7 (env : CallEnv) (p : Params) (data : SlotsBody) (d : String)
    (hd : p.date = some d) (hf : env.slotsFetch = .ok data)
    (he : (data.slots.bind fun m => m.lookup d) = none ∨
          (data.slots.bind fun m => m.lookup d) = some []) :
    handleGetAvailableSlots env p =
      { success := true, slots := some [],
        message := "I do not have any available appointments on " ++ d
          ++ ". Would you like to try a different date?" } := by
  cases hds : data.slots with
  | none =>
    simp [handleGetAvailableSlots, hf, hd, hds, formatSlots, jsStr]
  | some m =>
    rw [hds] at he
    simp only [Option.some_bind] at he
    rcases he with he | he <;>
      simp [handleGetAvailableSlots, hf, hd, hds, he, formatSlots, jsStr]

/-- Witness for C7: a date with an empty remote slot list. -/
theorem claimC7_witness :
    ((SlotsBody.mk (some [("2025-01-02", [])])).slots.bind
        (fun m => m.lookup "2025-01-02")) = some [] ∧
    handleGetAvailableSlots envW { date := some "2025-01-02" } =
      { success := true, slots := some [],
        message := "I do not have any available appointments on 2025-01-02. Would you like to try a different date?" } :=
  ⟨rfl,
   claimC7 envW { date := some "2025-01-02" } ⟨some [("2025-01-02", [])]⟩ "2025-01-02"
     rfl rfl (Or.inr rfl)⟩

/-- C9: an invocation with an unrecognized operation name yields a result
with `success = false`, an error detail containing the unknown name, and a
fixed generic apology as the message (which therefore does not interpolate
the name). -/
theorem claimC9 (env : CallEnv) (f : FuncCall)
    (h1 : f.name ≠ "getAvailableSlots") (h2 : f.name ≠ "bookAppointment")
    (h3 : f.name ≠ "cancelAppointment") (h4 : f.name ≠ "rescheduleAppointment") :
    (runCall env f).success = false ∧
    (runCall env f).error = some ("Unknown function: " ++ f.name) ∧
    hasInfix f.name.toList ("Unknown function: " ++ f.name).toList = true ∧
    (runCall env f).message = "I apologize, but I am not able to perform that action right now." := by
  refine ⟨?_, ?_, ?_, ?_⟩
  · simp [runCall, h1, h2, h3, h4]
  · simp [runCall, h1, h2, h3, h4]
  · rw [toList_append]
    exact hasInfix_append_self _ _
  · simp [runCall, h1, h2, h3, h4]

/-- Witness for C9 at the unknown operation name `frobnicate`. -/
theorem claimC9_witness :
    ("frobnicate" : String) ≠ "getAvailableSlots" ∧
    (runCall envW ⟨"frobnicate", {}⟩).success = false ∧
    (runCall envW ⟨"frobnicate", {}⟩).error = some ("Unknown function: " ++ "frobnicate") ∧
    hasInfix (String.toList "frobnicate")
      (String.toList ("Unknown function: " ++ "frobnicate")) = true ∧
    (runCall envW ⟨"frobnicate", {}⟩).message =
      "I apologize, but I am not able to perform that action right now." := by
  have h := claimC9 envW ⟨"frobnicate", {}⟩ (by decide) (by decide) (by decide) (by decide)
  exact ⟨by decide, h.1, h.2.1, h.2.2.1, h.2.2.2⟩

/-- C3: the dispatcher never raises past its own boundary — each
`function`-kind invocation at position `j` yields exactly one tagged result,
a total value of the embedded switch; the result at position `j` depends
only on that invocation's own external outcomes (so a failing sibling
cannot prevent it); every failing result carries an apologetic message;
and malformed arguments, a collaborator network failure, and an
unrecognized operation name each produce a captured `success = false`
result. -/
theorem claimC3 :
    (∀ (env : Nat → CallEnv) (calls : List ToolCall) (j : Nat) (tc : ToolCall),
      calls[j]? = some tc → tc.type = "function" →
      (dispatch env calls)[countFn calls j]? =
        some ⟨tc.id, runCall (env j) tc.func⟩) ∧
    (∀ (env₁ env₂ : Nat → CallEnv) (calls : List ToolCall) (j : Nat) (tc : ToolCall),
      calls[j]? = some tc → tc.type = "function" → env₁ j = env₂ j →
      (dispatch env₁ calls)[countFn calls j]? = (dispatch env₂ calls)[countFn calls j]?) ∧
    (∀ (env : CallEnv) (f : FuncCall),
      (runCall env f).success = false → isApology (runCall env f).message = true) ∧
    (∀ (env : CallEnv) (p : Params), p.time = none →
      (handleBookAppointment env p).1.success = false) ∧
    (∀ (env : CallEnv) (p : Params) (e : String), env.slotsFetch = .threw e →
      (handleGetAvailableSlots env p).success = false) ∧
    (∀ (env : CallEnv) (f : FuncCall),
      f.name ≠ "getAvailableSlots" → f.name ≠ "bookAppointment" →
      f.name ≠ "cancelAppointment" → f.name ≠ "rescheduleAppointment" →
      (runCall env f).success = false) := by
  refine ⟨?_, ?_, ?_, ?_, ?_, ?_⟩
  · intro env calls j tc h ht
    have := dispatchAux_getElem env calls 0 j tc h ht
    simpa using this
  · intro env₁ env₂ calls j tc h ht he
    have h1 := dispatchAux_getElem env₁ calls 0 j tc h ht
    have h2 := dispatchAux_getElem env₂ calls 0 j tc h ht
    simp only [Nat.zero_add] at h1 h2
    rw [dispatch, h1, dispatch, h2, he]
  · exact runCall_failure_apology
  · intro env p h
    simp [handleBookAppointment, parseDateTime, h, bookCatch]
  · intro env p e h
    simp [handleGetAvailableSlots, h]
  · intro env f h1 h2 h3 h4
    simp [runCall, h1, h2, h3, h4]

/-- Witness for C3 on a concrete batch: the function call at position 0 of
`callsW` yields its tagged result, a malformed book invocation and an
unknown operation are captured as apologetic failures. -/
theorem claimC3_witness :
    callsW[0]? = some ⟨"a", "function", ⟨"cancelAppointment", {}⟩⟩ ∧
    (dispatch envFW callsW)[countFn callsW 0]? =
      some ⟨"a", runCall (envFW 0) ⟨"cancelAppointment", {}⟩⟩ ∧
    ({} : Params).time = none ∧
    (handleBookAppointment envW {}).1.success = false ∧
    (runCall envW ⟨"mysteryOp", {}⟩).success = false ∧
    isApology (runCall envW ⟨"mysteryOp", {}⟩).message = true := by
  have hub := claimC3.2.2.2.2.2 envW ⟨"mysteryOp", {}⟩
    (by decide) (by decide) (by decide) (by decide)
  exact ⟨rfl,
    claimC3.1 envFW callsW 0 ⟨"a", "function", ⟨"cancelAppointment", {}⟩⟩ rfl rfl,
    rfl,
    claimC3.2.2.2.1 envW {} rfl,
    hub,
    claimC3.2.2.1 envW ⟨"mysteryOp", {}⟩ hub⟩

/-- C4: dispatching a batch yields one result per `function`-kind
invocation, tagged with the originating identifiers in input order (so the
lengths agree); a request with no message, a non-tool-calls message, or an
absent/empty tool-call list yields an empty result list, not a failure. -/
theorem claimC4 :
    (∀ (env : Nat → CallEnv) (calls : List ToolCall),
      (dispatch env calls).map (·.toolCallId) =
        (calls.filter (fun tc => tc.type == "function")).map (·.id) ∧
      (dispatch env calls).length =
        (calls.filter (fun tc => tc.type == "function")).length) ∧
    (∀ (env : Nat → CallEnv) (body : WebhookBody),
      (body.message = none ∨
        ∃ m, body.message = some m ∧
          (m.type ≠ "tool-calls" ∨ m.toolCallList = none ∨ m.toolCallList = some [])) →
      webhook env body = ⟨[]⟩) := by
  constructor
  · intro env calls
    have h := dispatchAux_map_tags env calls 0
    refine ⟨h, ?_⟩
    have h2 := congrArg List.length h
    simpa using h2
  · intro env body hb
    rcases hb with hb | ⟨m, hb, hm⟩
    · simp [webhook, hb]
    · rcases hm with hm | hm | hm
      · simp [webhook, hb, hm]
      · by_cases ht : m.type ≠ "tool-calls"
        · simp [webhook, hb, ht]
        · simp [webhook, hb, ht, hm]
      · by_cases ht : m.type ≠ "tool-calls"
        · simp [webhook, hb, ht]
        · simp [webhook, hb, ht, hm]

/-- Witness for C4 on the concrete batch `callsW` and an invocation-free
request body. -/
theorem claimC4_witness :
    (dispatch envFW callsW).map (·.toolCallId) =
      (callsW.filter (fun tc => tc.type == "function")).map (·.id) ∧
    ((⟨none⟩ : WebhookBody).message = none) ∧
    webhook envFW ⟨none⟩ = ⟨[]⟩ :=
  ⟨(claimC4.1 envFW callsW).1, rfl, claimC4.2 envFW ⟨none⟩ (Or.inl rfl)⟩

/-- A failing or soft-skipped WhatsApp send yields `success = false`. -/
theorem wa_fail (tw : TwilioEnv) (dest : Option String) (msg : String)
    (h : tw.configured = false ∨ ∀ sid, tw.fetch ≠ .ok sid) :
    (sendWhatsAppMessage tw dest msg).success = false := by
  rcases h with h | h
  · simp [sendWhatsAppMessage, h]
  · rcases htf : tw.fetch with e | e | sid
    · by_cases hc : tw.configured <;> simp [sendWhatsAppMessage, hc, htf]
    · by_cases hc : tw.configured <;> simp [sendWhatsAppMessage, hc, htf]
    · exact absurd htf (h sid)

/-- C8: when the booking creation succeeds (and the arguments are
well-formed), the booking result's `success` field is `true`, and any
messaging failure — including the soft-skip when Twilio is not
configured — shows up only as `whatsappSent = false`, never by flipping
`success`. -/
theorem claimC8 (env : CallEnv) (p : Params) (body : NewBookingBody)
    (d t : String) (hh mm : Nat)
    (hd : p.date = some d) (ht : p.time = some t)
    (hpt : parseTimeHM t = (some hh, mm))
    (hemail : jsTruthyB p.customerEmail = true ∨ ∃ ph, p.customerPhone = some ph)
    (hb : env.bookFetch = .ok body) :
    (handleBookAppointment env p).1.success = true ∧
    ((env.twilio.configured = false ∨ ∀ sid, env.twilio.fetch ≠ .ok sid) →
      (handleBookAppointment env p).1.whatsappSent = some false) := by
  have hpd : parseDateTime p.date p.time = .ok ⟨d, hh, mm⟩ := by
    rw [hd, ht]
    simp [parseDateTime, hpt]
  have hbe : ∃ em nc, bookEmailCalc p = .ok (em, nc) := by
    by_cases hce : jsTruthyB p.customerEmail
    · exact ⟨jsStr p.customerEmail, false, by simp [bookEmailCalc, hce]⟩
    · have hph := hemail.resolve_left hce
      obtain ⟨ph, hph⟩ := hph
      exact ⟨"pending-" ++ digitsOf ph ++ "@scteeth.temp", true,
        by simp [bookEmailCalc, hce, hph]⟩
  obtain ⟨em, nc, hbe⟩ := hbe
  constructor
  · simp only [handleBookAppointment, hpd, hbe, hb]
  · intro htw
    have hwa : ∀ msg, (sendWhatsAppMessage env.twilio p.customerPhone msg).success = false :=
      fun msg => wa_fail env.twilio p.customerPhone msg htw
    simp only [handleBookAppointment, hpd, hbe, hb, hwa]

/-- Witness for C8: a supplied email, a successful creation, and
unconfigured Twilio (the soft-skip). -/
theorem claimC8_witness :
    pW8.date = some "2025-06-01" ∧ pW8.time = some "2:00 PM" ∧
    parseTimeHM "2:00 PM" = (some 14, 0) ∧
    jsTruthyB pW8.customerEmail = true ∧
    envW.bookFetch = .ok {} ∧ envW.twilio.configured = false ∧
    (handleBookAppointment envW pW8).1.success = true ∧
    (handleBookAppointment envW pW8).1.whatsappSent = some false := by
  have h := claimC8 envW pW8 {} "2025-06-01" "2:00 PM" 14 0 rfl rfl rfl
    (Or.inl rfl) rfl
  exact ⟨rfl, rfl, rfl, rfl, rfl, rfl, h.1, h.2 (Or.inl rfl)⟩

/-- C10: on a successful booking creation, a supplied customer email is the
attendee email of the outbound payload and no `emailConfirmLink` is set;
with no customer email, the attendee email is the synthesized placeholder
`pending-<digits of phone>@scteeth.temp` and `emailConfirmLink` is the
confirm-email URL carrying the new booking's uid and the URL-encoded
phone. -/
theorem claimC10 (env : CallEnv) (p : Params) (body : NewBookingBody)
    (d t : String) (hh mm : Nat)
    (hd : p.date = some d) (ht : p.time = some t)
    (hpt : parseTimeHM t = (some hh, mm))
    (hb : env.bookFetch = .ok body) :
    (∀ em, p.customerEmail = some em → em ≠ "" →
      ∃ pl, (handleBookAppointment env p).2 = some pl ∧ pl.email = em ∧
        (handleBookAppointment env p).1.emailConfirmLink = none ∧
        (handleBookAppointment env p).1.success = true) ∧
    (∀ ph, p.customerEmail = none → p.customerPhone = some ph →
      ∃ pl, (handleBookAppointment env p).2 = some pl ∧
        pl.email = "pending-" ++ digitsOf ph ++ "@scteeth.temp" ∧
        (handleBookAppointment env p).1.success = true ∧
        ∀ uid, jsOrOpt body.uid body.dataUid = some uid →
          (handleBookAppointment env p).1.emailConfirmLink =
            some ("https://vapiwebhook.onrender.com/confirm-email.html?booking=" ++ uid
              ++ "&phone=" ++ encodeURIComponent ph)) := by
  have hpd : parseDateTime p.date p.time = .ok ⟨d, hh, mm⟩ := by
    rw [hd, ht]
    simp [parseDateTime, hpt]
  constructor
  · intro em hem hne
    have hbe : bookEmailCalc p = .ok (em, false) := by
      simp [bookEmailCalc, hem, jsTruthyB, jsStr, hne]
    refine ⟨{ eventTypeId := 3917527, start := ⟨d, hh, mm⟩, timeZone := "Europe/London",
              name := p.customerName, email := em,
              notes := jsOrD p.notes "Booked via AI Receptionist" }, ?_, ?_, ?_, ?_⟩ <;>
      simp only [handleBookAppointment, hpd, hbe, hb]
    all_goals rfl
  · intro ph hem hph
    have hbe : bookEmailCalc p = .ok ("pending-" ++ digitsOf ph ++ "@scteeth.temp", true) := by
      simp [bookEmailCalc, jsTruthyB, hem, hph]
    refine ⟨{ eventTypeId := 3917527, start := ⟨d, hh, mm⟩, timeZone := "Europe/London",
              name := p.customerName, email := "pending-" ++ digitsOf ph ++ "@scteeth.temp",
              notes := jsOrD p.notes "Booked via AI Receptionist - Email pending via WhatsApp" },
        ?_, ?_, ?_, ?_⟩
    · simp only [handleBookAppointment, hpd, hbe, hb, if_true]
    · rfl
    · simp only [handleBookAppointment, hpd, hbe, hb]
    · intro uid huid
      simp only [handleBookAppointment, hpd, hbe, hb, huid, hph, jsStr, if_true]

/-- Witness for C10: both the supplied-email and the placeholder cases at
concrete inputs. -/
theorem claimC10_witness :
    pW8.customerEmail = some "al@example.com" ∧
    (∃ pl, (handleBookAppointment envW pW8).2 = some pl ∧
      pl.email = "al@example.com" ∧
      (handleBookAppointment envW pW8).1.emailConfirmLink = none ∧
      (handleBookAppointment envW pW8).1.success = true) ∧
    pW10.customerEmail = none ∧ pW10.customerPhone = some "+447911" ∧
    (∃ pl, (handleBookAppointment envW10 pW10).2 = some pl ∧
      pl.email = "pending-" ++ digitsOf "+447911" ++ "@scteeth.temp" ∧
      (handleBookAppointment envW10 pW10).1.success = true ∧
      (handleBookAppointment envW10 pW10).1.emailConfirmLink =
        some ("https://vapiwebhook.onrender.com/confirm-email.html?booking=" ++ "uid-new"
          ++ "&phone=" ++ encodeURIComponent "+447911")) := by
  have hA := (claimC10 envW pW8 {} "2025-06-01" "2:00 PM" 14 0 rfl rfl rfl rfl).1
    "al@example.com" rfl (by decide)
  have hB := (claimC10 envW10 pW10 { uid := some "uid-new" } "2025-06-01" "2:00 PM" 14 0
    rfl rfl rfl rfl).2 "+447911" rfl rfl
  obtain ⟨pl, h1, h2, h3, h4⟩ := hB
  exact ⟨rfl, hA, rfl, rfl, pl, h1, h2, h3, h4 "uid-new" rfl⟩

/-- With truthy `bookingUid`/`email` the guard is passed and the main
workflow runs on their values. -/
theorem updateEmail_reaches (fmt : String → String × String) (env : CorrEnv)
    (store : List (String × CorrectionRecord)) (req : CorrReq) (u e : String)
    (hu : req.bookingUid = some u) (hu0 : u ≠ "")
    (he : req.email = some e) (he0 : e ≠ "") :
    updateEmail fmt env store req = updateEmailMain fmt env store u e req.phone req.name := by
  have h1 : jsTruthyB (some u) = true := by simp [jsTruthyB, hu0]
  have h2 : jsTruthyB (some e) = true := by simp [jsTruthyB, he0]
  simp [updateEmail, hu, he, h1, h2, jsStr]

/-- Placeholder booking, non-thrown cancel, successful creation: the rebook
path's outcome in closed form. -/
theorem updateEmailMain_rebook_ok (fmt : String → String × String) (env : CorrEnv)
    (store : List (String × CorrectionRecord)) (u e : String)
    (phone name : Option String) (data : BookingsBody) (b : Booking) (nb : NewBookingBody)
    (hl : env.listFetch = .ok data)
    (hfind : (data.bookings.getD []).find? (fun b' => b'.uid == u) = some b)
    (hpl : (jsTruthyB (oldEmailOf b) && strIncludes (jsStr (oldEmailOf b)) "@scteeth.temp") = true)
    (hcnt : ∀ s, env.cancelFetch ≠ .threw s)
    (hcr : env.createFetch = .ok nb) :
    updateEmailMain fmt env store u e phone name =
      { status := 200, success := true,
        message := "Email confirmed successfully! You will receive a confirmation email from Cal.com shortly.",
        booking := some ⟨(fmt b.startTime).1, (fmt b.startTime).2, correctedNameOf name b⟩,
        store := (u, { oldBookingUid := some u,
                       newBookingUid := jsOrOpt nb.uid nb.dataUid,
                       email := e, name := correctedNameOf name b, phone := phone,
                       originalEmail := oldEmailOf b,
                       originalName := (b.attendees.head?).bind (·.name),
                       updatedAt := env.now }) :: store,
        calls := [CollabCall.listBookings, CollabCall.cancelBooking b.id,
                  CollabCall.createBooking (rebookPayloadOf b (correctedNameOf name b) e)] } := by
  rcases hcf : env.cancelFetch with s | s | s
  · exact absurd hcf (hcnt s)
  · simp only [updateEmailMain, hl, hfind, hpl, if_true, hcf, hcr]
  · simp only [updateEmailMain, hl, hfind, hpl, if_true, hcf, hcr]

/-- Placeholder booking, non-thrown cancel, failing creation: the endpoint
falls through to the manual-notification tail with the full call trace. -/
theorem updateEmailMain_rebook_fail (fmt : String → String × String) (env : CorrEnv)
    (store : List (String × CorrectionRecord)) (u e : String)
    (phone name : Option String) (data : BookingsBody) (b : Booking) (err : String)
    (hl : env.listFetch = .ok data)
    (hfind : (data.bookings.getD []).find? (fun b' => b'.uid == u) = some b)
    (hpl : (jsTruthyB (oldEmailOf b) && strIncludes (jsStr (oldEmailOf b)) "@scteeth.temp") = true)
    (hcnt : ∀ s, env.cancelFetch ≠ .threw s)
    (hcr : env.createFetch = .notOk err ∨ env.createFetch = .threw err) :
    updateEmailMain fmt env store u e phone name =
      corrFallback env store u e phone b (correctedNameOf name b) (oldEmailOf b)
        (fmt b.startTime).1 (fmt b.startTime).2
        [CollabCall.listBookings, CollabCall.cancelBooking b.id,
         CollabCall.createBooking (rebookPayloadOf b (correctedNameOf name b) e)] := by
  rcases hcf : env.cancelFetch with s | s | s
  · exact absurd hcf (hcnt s)
  all_goals rcases hcr with hcr | hcr <;>
    simp only [updateEmailMain, hl, hfind, hpl, if_true, hcf, hcr]

/-- Non-placeholder booking: no cancel/create calls, straight to the
manual-notification tail. -/
theorem updateEmailMain_nonplaceholder (fmt : String → String × String) (env : CorrEnv)
    (store : List (String × CorrectionRecord)) (u e : String)
    (phone name : Option String) (data : BookingsBody) (b : Booking)
    (hl : env.listFetch = .ok data)
    (hfind : (data.bookings.getD []).find? (fun b' => b'.uid == u) = some b)
    (hpl : (jsTruthyB (oldEmailOf b) && strIncludes (jsStr (oldEmailOf b)) "@scteeth.temp") = false) :
    updateEmailMain fmt env store u e phone name =
      corrFallback env store u e phone b (correctedNameOf name b) (oldEmailOf b)
        (fmt b.startTime).1 (fmt b.startTime).2 [CollabCall.listBookings] := by
  simp only [updateEmailMain, hl, hfind, hpl, Bool.false_eq_true, if_false]

/-- C2: (a) for a found booking whose attendee email carries the reserved
placeholder domain, a successful rebook stores a record at the original uid
whose `newBookingUid` is the replacement booking's (fresh) uid and so
differs from the original; (b) for a found booking with a non-placeholder
email, no cancel or create call to the calendar provider occurs and the
stored record has no `newBookingUid`. -/
theorem claimC2 :
    (∀ (fmt : String → String × String) (env : CorrEnv)
       (store : List (String × CorrectionRecord)) (req : CorrReq)
       (u e oe nuid : String) (data : BookingsBody) (b : Booking) (nb : NewBookingBody),
      req.bookingUid = some u → u ≠ "" → req.email = some e → e ≠ "" →
      env.listFetch = .ok data →
      (data.bookings.getD []).find? (fun b' => b'.uid == u) = some b →
      oldEmailOf b = some oe → oe ≠ "" →
      strIncludes oe "@scteeth.temp" = true →
      (∀ s, env.cancelFetch ≠ .threw s) →
      env.createFetch = .ok nb →
      jsOrOpt nb.uid nb.dataUid = some nuid → nuid ≠ u →
      ∃ r, (updateEmail fmt env store req).store.lookup u = some r ∧
        r.newBookingUid = some nuid ∧ r.newBookingUid ≠ some u) ∧
    (∀ (fmt : String → String × String) (env : CorrEnv)
       (store : List (String × CorrectionRecord)) (req : CorrReq)
       (u e : String) (data : BookingsBody) (b : Booking),
      req.bookingUid = some u → u ≠ "" → req.email = some e → e ≠ "" →
      env.listFetch = .ok data →
      (data.bookings.getD []).find? (fun b' => b'.uid == u) = some b →
      (jsTruthyB (oldEmailOf b) && strIncludes (jsStr (oldEmailOf b)) "@scteeth.temp") = false →
      (∀ i, CollabCall.cancelBooking i ∉ (updateEmail fmt env store req).calls) ∧
      (∀ pl, CollabCall.createBooking pl ∉ (updateEmail fmt env store req).calls) ∧
      ∃ r, (updateEmail fmt env store req).store.lookup u = some r ∧
        r.newBookingUid = none) := by
  constructor
  · intro fmt env store req u e oe nuid data b nb hu hu0 he he0 hl hfind hoe hoe0 hinc
      hcnt hcr hnu hnequ
    have hpl : (jsTruthyB (oldEmailOf b) &&
        strIncludes (jsStr (oldEmailOf b)) "@scteeth.temp") = true := by
      simp [hoe, jsTruthyB, hoe0, jsStr, hinc]
    have heq := (updateEmail_reaches fmt env store req u e hu hu0 he he0).trans
      (updateEmailMain_rebook_ok fmt env store u e req.phone req.name data b nb
        hl hfind hpl hcnt hcr)
    refine ⟨{ oldBookingUid := some u, newBookingUid := jsOrOpt nb.uid nb.dataUid,
              email := e, name := correctedNameOf req.name b, phone := req.phone,
              originalEmail := oldEmailOf b,
              originalName := (b.attendees.head?).bind (·.name),
              updatedAt := env.now }, ?_, ?_, ?_⟩
    · rw [heq]
      simp [List.lookup]
    · simp [hnu]
    · simp [hnu, hnequ]
  · intro fmt env store req u e data b hu hu0 he he0 hl hfind hpl
    have heq := (updateEmail_reaches fmt env store req u e hu hu0 he he0).trans
      (updateEmailMain_nonplaceholder fmt env store u e req.phone req.name data b
        hl hfind hpl)
    rw [heq]
    refine ⟨?_, ?_, ?_⟩
    · intro i
      cases hres : env.resendConfigured <;> simp [corrFallback, hres]
    · intro pl
      cases hres : env.resendConfigured <;> simp [corrFallback, hres]
    · exact ⟨{ bookingUid := some u, email := e, name := correctedNameOf req.name b,
               phone := req.phone, originalEmail := oldEmailOf b,
               originalName := (b.attendees.head?).bind (·.name),
               updatedAt := env.now }, by simp [corrFallback, List.lookup], rfl⟩

/-- Witness for C2 at a placeholder booking with a fresh replacement uid
and at a real-email booking. -/
theorem claimC2_witness :
    corrReqW.bookingUid = some "uid-old" ∧
    oldEmailOf bookingW = some "pending-447911@scteeth.temp" ∧
    strIncludes "pending-447911@scteeth.temp" "@scteeth.temp" = true ∧
    corrEnvW.createFetch = .ok { uid := some "uid-new" } ∧
    (∃ r, (updateEmail fmtW corrEnvW [] corrReqW).store.lookup "uid-old" = some r ∧
      r.newBookingUid = some "uid-new" ∧ r.newBookingUid ≠ some "uid-old") ∧
    (jsTruthyB (oldEmailOf bookingW2) &&
      strIncludes (jsStr (oldEmailOf bookingW2)) "@scteeth.temp") = false ∧
    ((∀ i, CollabCall.cancelBooking i ∉ (updateEmail fmtW corrEnvW [] corrReqW2).calls) ∧
     (∀ pl, CollabCall.createBooking pl ∉ (updateEmail fmtW corrEnvW [] corrReqW2).calls) ∧
     ∃ r, (updateEmail fmtW corrEnvW [] corrReqW2).store.lookup "uid-real" = some r ∧
       r.newBookingUid = none) := by
  refine ⟨rfl, rfl, by decide, rfl, ?_, by decide, ?_⟩
  · exact claimC2.1 fmtW corrEnvW [] corrReqW "uid-old" "alex@example.com"
      "pending-447911@scteeth.temp" "uid-new" ⟨some [bookingW, bookingW2]⟩ bookingW
      { uid := some "uid-new" } rfl (by decide) rfl (by decide) rfl rfl rfl (by decide)
      (by decide) (fun s h => Fetch.noConfusion h) rfl rfl (by decide)
  · exact claimC2.2 fmtW corrEnvW [] corrReqW2 "uid-real" "sam.new@example.com"
      ⟨some [bookingW, bookingW2]⟩ bookingW2 rfl (by decide) rfl (by decide) rfl rfl
      (by decide)

/-- C1: on the placeholder path, a failed replacement-booking creation does
not produce an error response: the correction is recorded (manual shape,
no `newBookingUid`), a manual confirmation email is attempted when the
provider is configured, and the endpoint answers 200/success with the same
formatted date, time and corrected name as a successful rebook would, so
the response shape does not distinguish the two outcomes. -/
theorem claimC1 (fmt : String → String × String) (env : CorrEnv)
    (store : List (String × CorrectionRecord)) (req : CorrReq)
    (u e oe err : String) (data : BookingsBody) (b : Booking)
    (hu : req.bookingUid = some u) (hu0 : u ≠ "")
    (he : req.email = some e) (he0 : e ≠ "")
    (hl : env.listFetch = .ok data)
    (hfind : (data.bookings.getD []).find? (fun b' => b'.uid == u) = some b)
    (hoe : oldEmailOf b = some oe) (hoe0 : oe ≠ "")
    (hinc : strIncludes oe "@scteeth.temp" = true)
    (hcnt : ∀ s, env.cancelFetch ≠ .threw s)
    (hcr : env.createFetch = .notOk err ∨ env.createFetch = .threw err) :
    (updateEmail fmt env store req).status = 200 ∧
    (updateEmail fmt env store req).success = true ∧
    (updateEmail fmt env store req).booking =
      some ⟨(fmt b.startTime).1, (fmt b.startTime).2, correctedNameOf req.name b⟩ ∧
    (∃ r, (updateEmail fmt env store req).store.lookup u = some r ∧
      r.newBookingUid = none ∧ r.bookingUid = some u) ∧
    (env.resendConfigured = true →
      CollabCall.sendEmail e ∈ (updateEmail fmt env store req).calls) ∧
    (∀ nb : NewBookingBody,
      (updateEmail fmt { env with createFetch := .ok nb } store req).status =
        (updateEmail fmt env store req).status ∧
      (updateEmail fmt { env with createFetch := .ok nb } store req).success =
        (updateEmail fmt env store req).success ∧
      (updateEmail fmt { env with createFetch := .ok nb } store req).booking =
        (updateEmail fmt env store req).booking) := by
  have hpl : (jsTruthyB (oldEmailOf b) &&
      strIncludes (jsStr (oldEmailOf b)) "@scteeth.temp") = true := by
    simp [hoe, jsTruthyB, hoe0, jsStr, hinc]
  have heq := (updateEmail_reaches fmt env store req u e hu hu0 he he0).trans
    (updateEmailMain_rebook_fail fmt env store u e req.phone req.name data b err
      hl hfind hpl hcnt hcr)
  refine ⟨by rw [heq]; rfl, by rw [heq]; rfl, by rw [heq]; rfl, ?_, ?_, ?_⟩
  · rw [heq]
    exact ⟨{ bookingUid := some u, email := e, name := correctedNameOf req.name b,
             phone := req.phone, originalEmail := oldEmailOf b,
             originalName := (b.attendees.head?).bind (·.name),
             updatedAt := env.now }, by simp [corrFallback, List.lookup], rfl, rfl⟩
  · intro hres
    rw [heq]
    simp [corrFallback, hres]
  · intro nb
    have heq2 := (updateEmail_reaches fmt { env with createFetch := .ok nb } store req u e
        hu hu0 he he0).trans
      (updateEmailMain_rebook_ok fmt { env with createFetch := .ok nb } store u e
        req.phone req.name data b nb hl hfind hpl hcnt rfl)
    rw [heq, heq2]
    exact ⟨rfl, rfl, rfl⟩

/-- Witness for C1: the placeholder booking with a non-ok creation
response. -/
theorem claimC1_witness :
    corrEnvWFail.createFetch = .notOk "slot taken" ∧
    (updateEmail fmtW corrEnvWFail [] corrReqW).status = 200 ∧
    (updateEmail fmtW corrEnvWFail [] corrReqW).success = true ∧
    (updateEmail fmtW corrEnvWFail [] corrReqW).booking =
      some ⟨(fmtW bookingW.startTime).1, (fmtW bookingW.startTime).2,
        correctedNameOf corrReqW.name bookingW⟩ ∧
    (∃ r, (updateEmail fmtW corrEnvWFail [] corrReqW).store.lookup "uid-old" = some r ∧
      r.newBookingUid = none ∧ r.bookingUid = some "uid-old") ∧
    CollabCall.sendEmail "alex@example.com" ∈ (updateEmail fmtW corrEnvWFail [] corrReqW).calls := by
  have h := claimC1 fmtW corrEnvWFail [] corrReqW "uid-old" "alex@example.com"
    "pending-447911@scteeth.temp" "slot taken" ⟨some [bookingW, bookingW2]⟩ bookingW
    rfl (by decide) rfl (by decide) rfl rfl rfl (by decide) (by decide)
    (fun s hh => Fetch.noConfusion hh) (Or.inl rfl)
  exact ⟨rfl, h.1, h.2.1, h.2.2.1, h.2.2.2.1, h.2.2.2.2.1 rfl⟩

end VapiWebhook
